import Mathlib

/-!
# Verification of the budget tracker (`budget_tracker.py`)

A shallow embedding of the persistent store and the menu operations of the
personal-finance record keeper, together with proofs of the spec's testable
properties.  Monetary amounts (SQL `REAL`) are modelled as exact rationals,
SQL tables as Lean lists of row structures, and every query is translated
clause by clause from the SQL text in the source.
-/

set_option autoImplicit false

namespace BudgetTracker

/-! ## Data model

The six tables created by `create_database`:
`expense_category`, `expenses`, `income_category`, `income`, `budgets`,
`financial_goals`.  `expenses`/`income` carry `ON DELETE CASCADE` foreign
keys into their category tables, and `budgets` carries one into
`expense_category`. -/

/-- A row of `expense_category` or `income_category`: `(id, name)`. -/
structure Category where
  id : Nat
  name : String
  deriving DecidableEq, Repr

/-- A row of `expenses` or `income`: `(id, category_id, amount)`. -/
structure Txn where
  id : Nat
  category_id : Nat
  amount : ℚ
  deriving DecidableEq, Repr

/-- A row of `budgets`: `(id, category_id, amount)`, `category_id` referencing
`expense_category`. -/
structure BudgetRow where
  id : Nat
  category_id : Nat
  amount : ℚ
  deriving DecidableEq, Repr

/-- A row of `financial_goals`: `(id, description, target, progress)`. -/
structure GoalRow where
  id : Nat
  description : String
  target : ℚ
  progress : ℚ
  deriving DecidableEq, Repr

/-- The whole store `finance_manager.db`. -/
structure DB where
  expense_category : List Category
  expenses : List Txn
  income_category : List Category
  income : List Txn
  budgets : List BudgetRow
  financial_goals : List GoalRow
  deriving DecidableEq, Repr

/-- The freshly created, empty store. -/
def emptyDB : DB := ⟨[], [], [], [], [], []⟩

/-! ## Helper functions -/

/-- Python's `str.title()` on ASCII text: a cased character that follows a
non-cased character is uppercased, all other cased characters are
lowercased. -/
def pyTitleAux : List Char → Bool → List Char
  | [], _ => []
  | c :: cs, prevAlpha =>
      (if c.isAlpha then (if prevAlpha then c.toLower else c.toUpper) else c)
        :: pyTitleAux cs c.isAlpha

/-- `name.title()` as applied by `add_category` before uniqueness checking. -/
def pyTitle (s : String) : String := ⟨pyTitleAux s.data false⟩

/-- `add_category(table, name, unique_message)`: title-cases `name`, rejects
when a row with that exact name exists (`SELECT 1 FROM {table} WHERE name = ?`),
otherwise inserts.  Returns the new table contents and whether an insert
happened (`false` means the duplicate message was printed). -/
def add_category (cats : List Category) (new_id : Nat) (name : String) :
    List Category × Bool :=
  if cats.any (fun c => c.name = pyTitle name) then
    (cats, false)
  else
    (cats ++ [⟨new_id, pyTitle name⟩], true)

/-- `delete_record('expense_category', cid)` with `PRAGMA foreign_keys = ON`:
deletes the category row, and the `ON DELETE CASCADE` clauses on `expenses`
and `budgets` delete every row referencing it. -/
def delete_expense_category_record (db : DB) (cid : Nat) : DB :=
  { db with
    expense_category := db.expense_category.filter (fun c => c.id ≠ cid),
    expenses := db.expenses.filter (fun e => e.category_id ≠ cid),
    budgets := db.budgets.filter (fun b => b.category_id ≠ cid) }

/-- `delete_record('income_category', cid)` with `PRAGMA foreign_keys = ON`:
deletes the category row, and the `ON DELETE CASCADE` clause on `income`
deletes every row referencing it. -/
def delete_income_category_record (db : DB) (cid : Nat) : DB :=
  { db with
    income_category := db.income_category.filter (fun c => c.id ≠ cid),
    income := db.income.filter (fun i => i.category_id ≠ cid) }

/-- The duplicate check and conditional insert of `set_category_budget`
(after the category id has been validated and the amount read):
`SELECT 1 FROM budgets WHERE category_id = ?`; if a row exists the message
`Budget for category ID ... already exists.` is printed and nothing is
inserted (`false`), else `add_record('budgets', (category_id, amount))`. -/
def set_category_budget (db : DB) (category_id : Nat) (new_id : Nat)
    (amount : ℚ) : DB × Bool :=
  if db.budgets.any (fun b => b.category_id = category_id) then
    (db, false)
  else
    ({ db with budgets := db.budgets ++ [⟨new_id, category_id, amount⟩] }, true)

/-! ## Fetching and view functions -/

/-- One displayed row of `fetch_expenses` / `fetch_income`:
`(id, category name, amount)`. -/
abbrev JoinedRow := Nat × String × ℚ

/-- `fetch_expenses()`: `SELECT expenses.id, expense_category.name,
expenses.amount FROM expenses JOIN expense_category ON
expenses.category_id = expense_category.id`.  An inner join: an expense row
whose `category_id` matches no category row produces no output row. -/
def fetch_expenses (db : DB) : List JoinedRow :=
  db.expenses.filterMap (fun e =>
    (db.expense_category.find? (fun c => c.id = e.category_id)).map
      (fun c => (e.id, c.name, e.amount)))

/-- `fetch_income()`: the same inner join between `income` and
`income_category`. -/
def fetch_income (db : DB) : List JoinedRow :=
  db.income.filterMap (fun i =>
    (db.income_category.find? (fun c => c.id = i.category_id)).map
      (fun c => (i.id, c.name, i.amount)))

/-- What a `view_expenses` / `view_income` call reports: the printed total
(`none` when the empty-table message is printed instead) and the returned
list of identifiers. -/
structure ViewResult where
  total : Option ℚ
  ids : List Nat
  deriving DecidableEq, Repr

/-- `view_expenses()`: when `fetch_expenses` is nonempty, prints the table and
`sum(expense[2] for expense in expenses)` and returns
`[expense[0] for expense in expenses]`; otherwise prints
`No expenses have been entered.` and returns `[]`. -/
def view_expenses (db : DB) : ViewResult :=
  let expenses := fetch_expenses db
  if expenses.isEmpty then ⟨none, []⟩
  else ⟨some ((expenses.map (fun r => r.2.2)).sum), expenses.map (fun r => r.1)⟩

/-- `view_income()`: when `fetch_income` is nonempty, prints the table and
`sum(income[2] for income in incomes)` and returns
`[income[0] for income in incomes]`; otherwise prints
`No income records have been entered.` and returns `[]`. -/
def view_income (db : DB) : ViewResult :=
  let incomes := fetch_income db
  if incomes.isEmpty then ⟨none, []⟩
  else ⟨some ((incomes.map (fun r => r.2.2)).sum), incomes.map (fun r => r.1)⟩

/-- The Python return value of `view_expense_categories()`: `some ids` for the
list of category ids, where the empty branch returns the literal `[]`. -/
def view_expense_categories_ret (cats : List Category) : Option (List Nat) :=
  if cats.isEmpty then some []
  else some (cats.map (fun c => c.id))

/-- The Python return value of `view_income_categories()`: the empty branch of
the source has no `return` statement, so the function falls through and
returns `None` (modelled as `none`). -/
def view_income_categories_ret (cats : List Category) : Option (List Nat) :=
  if cats.isEmpty then none
  else some (cats.map (fun c => c.id))

/-- SQL `SELECT SUM(amount)`: `NULL` (here `none`) over an empty table, the
arithmetic sum otherwise. -/
def sqlSum (l : List ℚ) : Option ℚ :=
  if l.isEmpty then none else some l.sum

/-- `display_current_budget()`: reads `SUM(amount)` of `income` and of
`expenses` (each `or 0` when `NULL`), prints both totals and their
difference, and writes nothing.  Returns the (unchanged) store together
with `(total_income, total_expenses, current_budget)`. -/
def display_current_budget (db : DB) : DB × ℚ × ℚ × ℚ :=
  let total_income := (sqlSum (db.income.map (fun i => i.amount))).getD 0
  let total_expenses := (sqlSum (db.expenses.map (fun e => e.amount))).getD 0
  (db, total_income, total_expenses, total_income - total_expenses)

/-- The verdict line printed at the end of `view_category_budget`. -/
inductive BudgetVerdict where
  | overBudget (excess : ℚ)
  | withinBudget
  deriving DecidableEq, Repr

/-- The query and comparison of `view_category_budget` after the budget id has
been validated: `SELECT budgets.amount, IFNULL(SUM(expenses.amount), 0)
FROM budgets LEFT JOIN expenses ON budgets.category_id =
expenses.category_id WHERE budgets.id = ?`, then
`Expenditure is £{total_spent - budget_amount:.2f} over budget.` when
`total_spent > budget_amount`, else `Expenditure is within the budget.`
Returns `(budget_amount, total_spent, verdict)`, or `none` when no budget
row has the given id. -/
def view_category_budget (db : DB) (budget_id : Nat) :
    Option (ℚ × ℚ × BudgetVerdict) :=
  (db.budgets.find? (fun b => b.id = budget_id)).map (fun b =>
    let total_spent :=
      ((db.expenses.filter (fun e => e.category_id = b.category_id)).map
        (fun e => e.amount)).sum
    (b.amount, total_spent,
      if total_spent > b.amount then .overBudget (total_spent - b.amount)
      else .withinBudget))

/-- The verdict line printed at the end of `view_goal_progress`. -/
inductive GoalVerdict where
  | targetReached
  | shortBy (amount : ℚ)
  deriving DecidableEq, Repr

/-- The query and comparison of `view_goal_progress` after the goal id has
been validated: `SELECT description, target, progress FROM financial_goals
WHERE id = ?`, then `You have reached your saving target!` when
`progress >= target`, else `You are £{target - progress:.2f} short of your
target.`  Returns `(description, target, progress, verdict)`. -/
def view_goal_progress (db : DB) (goal_id : Nat) :
    Option (String × ℚ × ℚ × GoalVerdict) :=
  (db.financial_goals.find? (fun g => g.id = goal_id)).map (fun g =>
    (g.description, g.target, g.progress,
      if g.progress ≥ g.target then .targetReached
      else .shortBy (g.target - g.progress)))

/-! ## Identifier-selection retry loops

Every menu action that asks the user to pick an id runs
`validate_int_input` / `validate_range` in a `while True` loop.  We model
the stream of (already integer-parsed) user entries as a list; the loop
consumes entries until it breaks, aborts, or runs out of modelled input. -/

/-- `validate_range(value, valid_range)`: the value when it is in the valid
list, else `None` after a diagnostic. -/
def validate_range (value : Int) (valid : List Int) : Option Int :=
  if value ∈ valid then some value else none

/-- Outcome of an id-selection loop on a finite input stream. -/
inductive LoopOutcome where
  /-- the loop broke out with a validated id -/
  | completed (id : Int)
  /-- `Too many invalid attempts. Please try again later.` was printed and the
  action returned to its menu -/
  | aborted
  /-- the modelled input stream ran out while the loop was still prompting -/
  | exhausted
  deriving DecidableEq, Repr

/-- The capped selection loop shared by `add_expense`, `view_expenses_by_category`,
`update_expense`, `delete_expense`, `delete_income_category`, `add_income`,
`view_income_by_category`, `update_income`, `delete_income`,
`set_category_budget`, `view_category_budget`, `update_category_budget`,
`delete_category_budget`, `view_goal_progress`, `update_goal` and
`delete_goal`: on each iteration it first returns (`aborted`) when
`attempts >= 3`, else reads an entry, breaks on a valid one, and otherwise
increments `attempts`. -/
def capped_id_loop (valid : List Int) : List Int → Nat → LoopOutcome
  | inputs, attempts =>
    if attempts ≥ 3 then .aborted
    else
      match inputs with
      | [] => .exhausted
      | v :: rest =>
        match validate_range v valid with
        | some x => .completed x
        | none => capped_id_loop valid rest (attempts + 1)

/-- The selection loop of `delete_expense_category` (source lines 254-258):
unlike every other id-selection loop it keeps no attempt counter — it
breaks only on a valid entry and otherwise loops again. -/
def delete_expense_category_select (valid : List Int) : List Int → LoopOutcome
  | [] => .exhausted
  | v :: rest =>
    match validate_range v valid with
    | some x => .completed x
    | none => delete_expense_category_select valid rest

/-- `update_record('expenses', expense_id, [...])` with the `category_id` field
chosen, followed by `perform_update`: the new value is read with a bare
`input(...)` (the field name does not contain `amount`), so any value is
accepted without checking it against existing categories, and
`UPDATE expenses SET category_id = ? WHERE id = ?` is executed. -/
def update_expense_category_id (db : DB) (record_id : Nat) (new_value : Nat) :
    DB :=
  { db with
    expenses := db.expenses.map (fun e =>
      if e.id = record_id then { e with category_id := new_value } else e) }

/-- The same `update_record`/`perform_update` path for `income` with the
`category_id` field chosen: `UPDATE income SET category_id = ? WHERE
id = ?`, the new value unvalidated. -/
def update_income_category_id (db : DB) (record_id : Nat) (new_value : Nat) :
    DB :=
  { db with
    income := db.income.map (fun i =>
      if i.id = record_id then { i with category_id := new_value } else i) }

/-- `update_record('expenses', expense_id, [...])` with the `amount` field
chosen: the new value is read with `validate_float_input`, then
`UPDATE expenses SET amount = ? WHERE id = ?`. -/
def update_expense_amount (db : DB) (record_id : Nat) (new_value : ℚ) : DB :=
  { db with
    expenses := db.expenses.map (fun e =>
      if e.id = record_id then { e with amount := new_value } else e) }

/-- `update_record('income', income_id, [...])` with the `amount` field
chosen: `UPDATE income SET amount = ? WHERE id = ?`. -/
def update_income_amount (db : DB) (record_id : Nat) (new_value : ℚ) : DB :=
  { db with
    income := db.income.map (fun i =>
      if i.id = record_id then { i with amount := new_value } else i) }

/-- `add_record('expenses', (category_id, amount))` as executed at the end of
`add_expense`: inserts the new row. -/
def add_expense_record (db : DB) (new_id category_id : Nat) (amount : ℚ) :
    DB :=
  { db with expenses := db.expenses ++ [⟨new_id, category_id, amount⟩] }

/-- `add_record('income', (category_id, amount))` as executed at the end of
`add_income`: inserts the new row. -/
def add_income_record (db : DB) (new_id category_id : Nat) (amount : ℚ) :
    DB :=
  { db with income := db.income ++ [⟨new_id, category_id, amount⟩] }

/-- `delete_record('expenses', expense_id)` as executed at the end of
`delete_expense`: removes that single row (no table references `expenses`,
so the cascade pragma removes nothing else). -/
def delete_expense_record (db : DB) (record_id : Nat) : DB :=
  { db with expenses := db.expenses.filter (fun e => e.id ≠ record_id) }

/-- `delete_record('income', income_id)` as executed at the end of
`delete_income`: removes that single row. -/
def delete_income_record (db : DB) (record_id : Nat) : DB :=
  { db with income := db.income.filter (fun i => i.id ≠ record_id) }

/-- The query of `view_expenses_by_category` after the category id has been
validated: `SELECT amount FROM expenses WHERE category_id = ?`, printed as
a table together with its sum. -/
def view_expenses_by_category_sum (db : DB) (category_id : Nat) :
    List ℚ × ℚ :=
  let amounts := (db.expenses.filter
    (fun e => e.category_id = category_id)).map (fun e => e.amount)
  (amounts, amounts.sum)

/-- The query of `view_income_by_category` after the category id has been
validated: `SELECT amount FROM income WHERE category_id = ?`, printed as a
table together with its sum. -/
def view_income_by_category_sum (db : DB) (category_id : Nat) :
    List ℚ × ℚ :=
  let amounts := (db.income.filter
    (fun i => i.category_id = category_id)).map (fun i => i.amount)
  (amounts, amounts.sum)

end BudgetTracker

namespace BudgetTracker

/-! ## Sample stores used to evaluate the definitions on concrete inputs -/

/-- A small populated store: one expense category `Food` with two expenses
(7 and 5), one income category `Wages` with one income (20), a budget of 10
for `Food`, and one goal. -/
def dbA : DB :=
  { expense_category := [⟨1, "Food"⟩],
    expenses := [⟨1, 1, 7⟩, ⟨2, 1, 5⟩],
    income_category := [⟨1, "Wages"⟩],
    income := [⟨1, 1, 20⟩],
    budgets := [⟨1, 1, 10⟩],
    financial_goals := [⟨1, "Car", 100, 40⟩] }

/-- A store with two expense categories, each with one expense. -/
def dbB : DB :=
  { expense_category := [⟨1, "Food"⟩, ⟨2, "Rent"⟩],
    expenses := [⟨1, 1, 7⟩, ⟨3, 2, 4⟩],
    income_category := [],
    income := [],
    budgets := [],
    financial_goals := [] }

/-- The income-side mirror of `dbA`'s expense data: the same category rows
stored as income categories and the same transaction rows stored as
income. -/
def dbC : DB :=
  { expense_category := [],
    expenses := [],
    income_category := [⟨1, "Food"⟩],
    income := [⟨1, 1, 7⟩, ⟨2, 1, 5⟩],
    budgets := [],
    financial_goals := [] }

section Scratch

example : pyTitle "FOOD" = "Food" := by decide
example : pyTitle "food" = "Food" := by decide
example : pyTitle "food costs" = "Food Costs" := by decide

example : view_category_budget dbA 1 = some (10, 12, .overBudget 2) := by
  norm_num [view_category_budget, dbA, List.find?, List.filter]
example : view_goal_progress dbA 1 = some ("Car", 100, 40, .shortBy 60) := by
  norm_num [view_goal_progress, dbA, List.find?]
example : view_expenses dbA = ⟨some 12, [1, 2]⟩ := by
  norm_num [view_expenses, fetch_expenses, dbA, List.find?, List.filterMap]
example : view_income emptyDB = ⟨none, []⟩ := by
  norm_num [view_income, fetch_income, emptyDB]
example : (display_current_budget dbA).2 = (20, 12, 8) := by
  norm_num [display_current_budget, dbA, sqlSum]
example : delete_expense_category_select [1] [5, 5, 5, 5, 5] = .exhausted := by
  decide
example : capped_id_loop [1] [5, 5, 5, 5, 5] 0 = .aborted := by decide
example : capped_id_loop [1] [5, 5, 1] 0 = .completed 1 := by decide
example :
    view_expenses (update_expense_category_id dbA 2 99) = ⟨some 7, [1]⟩ := by
  norm_num [view_expenses, fetch_expenses, update_expense_category_id, dbA,
    List.find?, List.filterMap]

end Scratch

/-! ## Theorems -/

/-- C2: for every expense category that already has a budget row, a second
`set_category_budget` for that category is rejected (the message path),
inserts no row, and leaves the store — in particular the existing budget
row and its amount — unchanged. -/
theorem c2_duplicate_budget_rejected (db : DB) (cid new_id : Nat) (amt : ℚ)
    (b : BudgetRow) (hcat : ∃ c ∈ db.expense_category, c.id = cid)
    (hb : b ∈ db.budgets) (hbc : b.category_id = cid) :
    (set_category_budget db cid new_id amt).1 = db
    ∧ (set_category_budget db cid new_id amt).2 = false
    ∧ (set_category_budget db cid new_id amt).1.budgets = db.budgets
    ∧ b ∈ (set_category_budget db cid new_id amt).1.budgets := by
  have hany : db.budgets.any (fun x => x.category_id = cid) = true := by
    rw [List.any_eq_true]
    exact ⟨b, hb, by simp [hbc]⟩
  have hstep : set_category_budget db cid new_id amt = (db, false) := by
    simp only [set_category_budget, hany]
    simp
  rw [hstep]
  exact ⟨rfl, rfl, rfl, hb⟩

/-- Concrete run of `c2_duplicate_budget_rejected` on `dbA`, whose category 1
already has the budget row `(1, 1, 10)`. -/
theorem c2_duplicate_budget_rejected_witness :
    (set_category_budget dbA 1 2 25).1 = dbA
    ∧ (set_category_budget dbA 1 2 25).2 = false :=
  have h := c2_duplicate_budget_rejected dbA 1 2 25 ⟨1, 1, 10⟩
    ⟨⟨1, "Food"⟩, by simp [dbA]⟩ (by simp [dbA]) rfl
  ⟨h.1, h.2.1⟩

/-- C3: deleting an expense category that has at least one dependent expense
row removes the category row and every expense row referencing it, keeps
every other expense row, and symmetrically for income categories and
income rows. -/
theorem c3_cascade_delete (db : DB) (cid : Nat)
    (hdep : ∃ e ∈ db.expenses, e.category_id = cid) :
    (∀ c ∈ (delete_expense_category_record db cid).expense_category, c.id ≠ cid)
    ∧ (∀ e ∈ (delete_expense_category_record db cid).expenses,
        e.category_id ≠ cid)
    ∧ (∀ e ∈ db.expenses, e.category_id ≠ cid →
        e ∈ (delete_expense_category_record db cid).expenses)
    ∧ ∀ (db2 : DB) (cid2 : Nat), (∃ i ∈ db2.income, i.category_id = cid2) →
        (∀ c ∈ (delete_income_category_record db2 cid2).income_category,
          c.id ≠ cid2)
        ∧ (∀ i ∈ (delete_income_category_record db2 cid2).income,
            i.category_id ≠ cid2)
        ∧ (∀ i ∈ db2.income, i.category_id ≠ cid2 →
            i ∈ (delete_income_category_record db2 cid2).income) := by
  refine ⟨?_, ?_, ?_, ?_⟩
  · intro c hc
    simp only [delete_expense_category_record, List.mem_filter,
      decide_eq_true_eq] at hc
    exact hc.2
  · intro e he
    simp only [delete_expense_category_record, List.mem_filter,
      decide_eq_true_eq] at he
    exact he.2
  · intro e he hne
    simp only [delete_expense_category_record, List.mem_filter,
      decide_eq_true_eq]
    exact ⟨he, hne⟩
  · intro db2 cid2 _
    refine ⟨?_, ?_, ?_⟩
    · intro c hc
      simp only [delete_income_category_record, List.mem_filter,
        decide_eq_true_eq] at hc
      exact hc.2
    · intro i hi
      simp only [delete_income_category_record, List.mem_filter,
        decide_eq_true_eq] at hi
      exact hi.2
    · intro i hi hne
      simp only [delete_income_category_record, List.mem_filter,
        decide_eq_true_eq]
      exact ⟨hi, hne⟩

/-- Concrete run of `c3_cascade_delete`: deleting category 1 of `dbB` (which
has the dependent expense `(1, 1, 7)`) keeps the category-2 expense
`(3, 2, 4)`, and that surviving row does not reference category 1. -/
theorem c3_cascade_delete_witness :
    (⟨3, 2, 4⟩ : Txn) ∈ (delete_expense_category_record dbB 1).expenses
    ∧ (⟨3, 2, 4⟩ : Txn).category_id ≠ 1 :=
  have hmem : (⟨3, 2, 4⟩ : Txn)
      ∈ (delete_expense_category_record dbB 1).expenses := by
    simp [delete_expense_category_record, dbB]
  ⟨hmem, (c3_cascade_delete dbB 1 ⟨⟨1, 1, 7⟩, by simp [dbB], rfl⟩).2.1
    ⟨3, 2, 4⟩ hmem⟩

/-- C4: adding the same category name twice (the two raw inputs agreeing
after title-casing), starting from a table satisfying the uniqueness
invariant (at most one row with that name), leaves exactly one stored row
with the title-cased name: the second attempt changes nothing and reports
the duplicate message (`false`). -/
theorem c4_add_category_twice (cats : List Category) (nid1 nid2 : Nat)
    (n1 n2 : String) (heq : pyTitle n1 = pyTitle n2)
    (hinv : cats.countP (fun c => c.name = pyTitle n1) ≤ 1) :
    (add_category (add_category cats nid1 n1).1 nid2 n2).1
      = (add_category cats nid1 n1).1
    ∧ (add_category (add_category cats nid1 n1).1 nid2 n2).2 = false
    ∧ (add_category (add_category cats nid1 n1).1 nid2 n2).1.countP
        (fun c => c.name = pyTitle n1) = 1 := by
  by_cases hex : cats.any (fun c => c.name = pyTitle n1) = true
  · have hstep1 : add_category cats nid1 n1 = (cats, false) := by
      unfold add_category
      rw [if_pos hex]
    have hany2 : cats.any (fun c => c.name = pyTitle n2) = true := by
      rw [← heq]
      exact hex
    have hstep2 : add_category (add_category cats nid1 n1).1 nid2 n2
        = ((add_category cats nid1 n1).1, false) := by
      rw [hstep1]
      unfold add_category
      rw [if_pos hany2]
    have hpos : 0 < cats.countP (fun c => c.name = pyTitle n1) := by
      rw [List.countP_pos_iff]
      obtain ⟨c, hc, hcp⟩ := List.any_eq_true.mp hex
      exact ⟨c, hc, hcp⟩
    refine ⟨by rw [hstep2], by rw [hstep2], ?_⟩
    rw [hstep2, hstep1]
    exact le_antisymm hinv hpos
  · have hany1 : cats.any (fun c => c.name = pyTitle n1) = false := by
      cases hb : cats.any (fun c => c.name = pyTitle n1) with
      | false => rfl
      | true => exact absurd hb hex
    have hstep1 : add_category cats nid1 n1
        = (cats ++ [⟨nid1, pyTitle n1⟩], true) := by
      unfold add_category
      rw [if_neg]
      simp [hany1]
    have hany2 : (cats ++ [(⟨nid1, pyTitle n1⟩ : Category)]).any
        (fun c => c.name = pyTitle n2) = true := by
      rw [List.any_eq_true]
      exact ⟨⟨nid1, pyTitle n1⟩, by simp, by simp [heq]⟩
    have hstep2 : add_category (add_category cats nid1 n1).1 nid2 n2
        = ((add_category cats nid1 n1).1, false) := by
      rw [hstep1]
      unfold add_category
      rw [if_pos hany2]
    refine ⟨by rw [hstep2], by rw [hstep2], ?_⟩
    rw [hstep2]
    have hcount0 : cats.countP (fun c => decide (c.name = pyTitle n1)) = 0 := by
      rw [List.countP_eq_zero]
      intro c hc
      have := List.any_eq_false.mp hany1 c hc
      simpa using this
    rw [hstep1]
    simp [List.countP_append, hcount0, List.countP_cons]

/-- Concrete run of `c4_add_category_twice`: adding `food` then `FOOD` to an
empty category table leaves exactly one row named `Food`. -/
theorem c4_add_category_twice_witness :
    (add_category (add_category [] 1 "food").1 2 "FOOD").1.countP
      (fun c => c.name = pyTitle "food") = 1 :=
  (c4_add_category_twice [] 1 2 "food" "FOOD" (by decide) (by simp)).2.2

/-- The comparison printed by `view_category_budget`, in isolation. -/
lemma budget_verdict_iff (B S : ℚ) :
    (S > B ↔ (if S > B then BudgetVerdict.overBudget (S - B)
        else BudgetVerdict.withinBudget) = BudgetVerdict.overBudget (S - B))
    ∧ (S ≤ B ↔ (if S > B then BudgetVerdict.overBudget (S - B)
        else BudgetVerdict.withinBudget) = BudgetVerdict.withinBudget)
    ∧ (∀ x : ℚ, (if S > B then BudgetVerdict.overBudget (S - B)
        else BudgetVerdict.withinBudget) = BudgetVerdict.overBudget x →
          x = S - B) := by
  by_cases hgt : S > B
  · rw [if_pos hgt]
    refine ⟨⟨fun _ => rfl, fun _ => hgt⟩, ⟨?_, ?_⟩, ?_⟩
    · intro hle
      exact absurd hgt (not_lt.mpr hle)
    · intro hcontra
      exact BudgetVerdict.noConfusion hcontra
    · intro x hx
      cases hx
      rfl
  · rw [if_neg hgt]
    refine ⟨⟨fun hgt2 => absurd hgt2 hgt, ?_⟩,
      ⟨fun _ => rfl, fun _ => not_lt.mp hgt⟩, ?_⟩
    · intro hcontra
      exact BudgetVerdict.noConfusion hcontra
    · intro x hx
      exact BudgetVerdict.noConfusion hx

/-- C1: whenever `view_category_budget` looks up a budget with amount `B` and
computes a spent total `S`, it reports over-budget by exactly `S - B` iff
`S > B` and within-budget iff `S ≤ B`; and when the budget's category has
no matching expense rows, the spent total is `0`. -/
theorem c1_budget_variance (db : DB) (budget_id : Nat) (B S : ℚ)
    (v : BudgetVerdict)
    (h : view_category_budget db budget_id = some (B, S, v)) :
    (S > B ↔ v = BudgetVerdict.overBudget (S - B))
    ∧ (S ≤ B ↔ v = BudgetVerdict.withinBudget)
    ∧ (∀ x : ℚ, v = BudgetVerdict.overBudget x → x = S - B)
    ∧ (∀ b ∈ db.budgets, db.budgets.find? (fun x => x.id = budget_id) = some b →
        db.expenses.filter (fun e => e.category_id = b.category_id) = [] →
          S = 0) := by
  unfold view_category_budget at h
  cases hfind : db.budgets.find? (fun b => b.id = budget_id) with
  | none =>
    rw [hfind] at h
    simp at h
  | some b =>
    rw [hfind] at h
    simp only [Option.map_some', Option.some.injEq, Prod.mk.injEq] at h
    obtain ⟨hB, hS, hv⟩ := h
    subst hB
    subst hS
    rw [← hv]
    refine ⟨(budget_verdict_iff _ _).1, (budget_verdict_iff _ _).2.1,
      (budget_verdict_iff _ _).2.2, ?_⟩
    intro b' _ hfind' hfilter
    injection hfind' with hbb
    subst hbb
    rw [hfilter]
    simp

/-- Concrete run of `c1_budget_variance` on `dbA`: budget 10, spent 12,
reported over budget by 2. -/
theorem c1_budget_variance_witness :
    view_category_budget dbA 1 = some (10, 12, BudgetVerdict.overBudget 2)
    ∧ ((12 : ℚ) > 10 ↔ BudgetVerdict.overBudget 2
        = BudgetVerdict.overBudget ((12 : ℚ) - 10)) :=
  have h : view_category_budget dbA 1
      = some (10, 12, BudgetVerdict.overBudget 2) := by
    norm_num [view_category_budget, dbA, List.find?, List.filter]
  ⟨h, (c1_budget_variance dbA 1 10 12 (BudgetVerdict.overBudget 2) h).1⟩

/-- The comparison printed by `view_goal_progress`, in isolation. -/
lemma goal_verdict_iff (T P : ℚ) :
    (P ≥ T ↔ (if P ≥ T then GoalVerdict.targetReached
        else GoalVerdict.shortBy (T - P)) = GoalVerdict.targetReached)
    ∧ (P < T ↔ (if P ≥ T then GoalVerdict.targetReached
        else GoalVerdict.shortBy (T - P)) = GoalVerdict.shortBy (T - P))
    ∧ (∀ x : ℚ, (if P ≥ T then GoalVerdict.targetReached
        else GoalVerdict.shortBy (T - P)) = GoalVerdict.shortBy x →
          x = T - P) := by
  by_cases hge : P ≥ T
  · rw [if_pos hge]
    refine ⟨⟨fun _ => rfl, fun _ => hge⟩,
      ⟨fun hlt => absurd hge (not_le.mpr hlt), ?_⟩, ?_⟩
    · intro hcontra
      exact GoalVerdict.noConfusion hcontra
    · intro x hx
      exact GoalVerdict.noConfusion hx
  · rw [if_neg hge]
    refine ⟨⟨fun hge2 => absurd hge2 hge, ?_⟩,
      ⟨fun _ => rfl, fun _ => not_le.mp hge⟩, ?_⟩
    · intro hcontra
      exact GoalVerdict.noConfusion hcontra
    · intro x hx
      cases hx
      rfl

/-- C5: whenever `view_goal_progress` looks up a goal with target `T` and
progress `P`, it reports the target reached iff `P ≥ T`, otherwise a
shortfall of exactly `T - P`, and any reported shortfall equals `T - P`
(so no shortfall is shown when the target is reached). -/
theorem c5_goal_shortfall (db : DB) (goal_id : Nat) (d : String) (T P : ℚ)
    (v : GoalVerdict)
    (h : view_goal_progress db goal_id = some (d, T, P, v)) :
    (P ≥ T ↔ v = GoalVerdict.targetReached)
    ∧ (P < T ↔ v = GoalVerdict.shortBy (T - P))
    ∧ (∀ x : ℚ, v = GoalVerdict.shortBy x → x = T - P) := by
  unfold view_goal_progress at h
  cases hfind : db.financial_goals.find? (fun g => g.id = goal_id) with
  | none =>
    rw [hfind] at h
    simp at h
  | some g =>
    rw [hfind] at h
    simp only [Option.map_some', Option.some.injEq, Prod.mk.injEq] at h
    obtain ⟨hd, hT, hP, hv⟩ := h
    subst hd
    subst hT
    subst hP
    rw [← hv]
    exact goal_verdict_iff g.target g.progress

/-- Concrete run of `c5_goal_shortfall` on `dbA`: target 100, progress 40,
reported 60 short. -/
theorem c5_goal_shortfall_witness :
    view_goal_progress dbA 1 = some ("Car", 100, 40, GoalVerdict.shortBy 60)
    ∧ ((40 : ℚ) < 100 ↔ GoalVerdict.shortBy 60
        = GoalVerdict.shortBy ((100 : ℚ) - 40)) :=
  have h : view_goal_progress dbA 1
      = some ("Car", 100, 40, GoalVerdict.shortBy 60) := by
    norm_num [view_goal_progress, dbA, List.find?]
  ⟨h, (c5_goal_shortfall dbA 1 "Car" 100 40 (GoalVerdict.shortBy 60) h).2.1⟩

/-- `SELECT SUM(amount)` followed by Python's `or 0` is the arithmetic sum,
also over the empty table. -/
lemma sqlSum_getD (l : List ℚ) : (sqlSum l).getD 0 = l.sum := by
  cases l <;> simp [sqlSum]

/-- C6: `display_current_budget` reports the sum of all income amounts, the
sum of all expense amounts (each `0` for an empty table), and their
difference income minus expenses, and returns the store unchanged (it
performs no write). -/
theorem c6_display_overall (db : DB) :
    (display_current_budget db).1 = db
    ∧ (display_current_budget db).2.1 = (db.income.map (fun i => i.amount)).sum
    ∧ (display_current_budget db).2.2.1
        = (db.expenses.map (fun e => e.amount)).sum
    ∧ (display_current_budget db).2.2.2
        = (display_current_budget db).2.1 - (display_current_budget db).2.2.1
    ∧ (db.income = [] → (display_current_budget db).2.1 = 0)
    ∧ (db.expenses = [] → (display_current_budget db).2.2.1 = 0) := by
  refine ⟨rfl, sqlSum_getD _, sqlSum_getD _, rfl, ?_, ?_⟩
  · intro h
    simp [display_current_budget, h, sqlSum]
  · intro h
    simp [display_current_budget, h, sqlSum]

/-- Concrete run of `c6_display_overall` on the empty store: both totals and
the difference are 0 and the store is untouched. -/
theorem c6_display_overall_witness :
    (display_current_budget emptyDB).1 = emptyDB
    ∧ (display_current_budget emptyDB).2.1 = 0
    ∧ (display_current_budget emptyDB).2.2.1 = 0 :=
  ⟨(c6_display_overall emptyDB).1,
    (c6_display_overall emptyDB).2.2.2.2.1 rfl,
    (c6_display_overall emptyDB).2.2.2.2.2 rfl⟩

/-- C7: the selection loop of `delete_expense_category` keeps no attempt
counter — on a stream of out-of-range entries of any length it is still
prompting (it never abandons the action), whereas the capped loop used by
every other identifier-selecting action aborts once 3 attempts have
failed. -/
theorem c7_delete_expense_category_retry_unbounded (valid : List Int)
    (bad : Int) (hbad : bad ∉ valid) :
    (∀ n : Nat, delete_expense_category_select valid (List.replicate n bad)
      = LoopOutcome.exhausted)
    ∧ (∀ n : Nat, delete_expense_category_select valid (List.replicate n bad)
      ≠ LoopOutcome.aborted)
    ∧ capped_id_loop valid (List.replicate 3 bad) 0 = LoopOutcome.aborted := by
  have hval : validate_range bad valid = none := by
    simp [validate_range, hbad]
  have hmain : ∀ n : Nat, delete_expense_category_select valid
      (List.replicate n bad) = LoopOutcome.exhausted := by
    intro n
    induction n with
    | zero => rfl
    | succ k ih =>
      rw [List.replicate_succ]
      simp only [delete_expense_category_select, hval]
      exact ih
  refine ⟨hmain, ?_, ?_⟩
  · intro n hcontra
    rw [hmain n] at hcontra
    exact LoopOutcome.noConfusion hcontra
  · simp [capped_id_loop, List.replicate, hval]

/-- Concrete run of `c7_delete_expense_category_retry_unbounded`: with valid
category ids `[1]` and the out-of-range entry `999` given four times,
`delete_expense_category` is still prompting, while the capped loop of the
other actions has already aborted after 3 failures. -/
theorem c7_delete_expense_category_retry_unbounded_witness :
    delete_expense_category_select [1] (List.replicate 4 999)
      = LoopOutcome.exhausted
    ∧ capped_id_loop [1] (List.replicate 3 999) 0 = LoopOutcome.aborted :=
  ⟨(c7_delete_expense_category_retry_unbounded [1] 999 (by decide)).1 4,
    (c7_delete_expense_category_retry_unbounded [1] 999 (by decide)).2.2⟩

/-- C8 counterexample: on an empty income table `view_income` prints the
no-records message and reports no total at all — not a total of 0 — while
returning the empty identifier list. -/
theorem c8_counterexample :
    (view_income emptyDB).total = none
    ∧ (view_income emptyDB).total ≠ some 0
    ∧ (view_income emptyDB).ids = [] := by
  refine ⟨rfl, ?_, rfl⟩
  intro hcontra
  exact Option.noConfusion hcontra

/-- An inner join in which every left row finds a category keeps, in order,
one output row per left row, carrying its id and amount. -/
lemma join_filterMap_map (cats : List Category) (l : List Txn)
    (hwf : ∀ i ∈ l, ∃ c ∈ cats, c.id = i.category_id) :
    ((l.filterMap (fun i => (cats.find? (fun c => c.id = i.category_id)).map
        (fun c => (i.id, c.name, i.amount)))).map (fun r : JoinedRow => r.1)
      = l.map (fun i => i.id))
    ∧ ((l.filterMap (fun i => (cats.find? (fun c => c.id = i.category_id)).map
        (fun c => (i.id, c.name, i.amount)))).map (fun r : JoinedRow => r.2.2)
      = l.map (fun i => i.amount)) := by
  induction l with
  | nil => simp
  | cons i rest ih =>
    have hrest := ih (fun j hj => hwf j (by simp [hj]))
    obtain ⟨c, hc, hcid⟩ := hwf i (by simp)
    have hfind : (cats.find? (fun c => c.id = i.category_id)).isSome := by
      rw [List.find?_isSome]
      exact ⟨c, hc, by simp [hcid]⟩
    obtain ⟨c0, hc0⟩ := Option.isSome_iff_exists.mp hfind
    rw [List.filterMap_cons, hc0]
    simp only [Option.map_some']
    exact ⟨by simp [hrest.1], by simp [hrest.2]⟩

/-- C8 (amended): for a store whose income rows all reference an existing
income category, `view_income` with at least one income row reports a
total equal to the arithmetic sum of the amounts and returns the list of
income identifiers; with no income rows it prints the no-records message,
reports no total, and returns the empty list. -/
theorem c8_view_income_total (db : DB)
    (hwf : ∀ i ∈ db.income, ∃ c ∈ db.income_category, c.id = i.category_id) :
    (db.income ≠ [] →
      (view_income db).total = some ((db.income.map (fun i => i.amount)).sum)
      ∧ (view_income db).ids = db.income.map (fun i => i.id))
    ∧ (db.income = [] →
      (view_income db).total = none ∧ (view_income db).ids = []) := by
  have hj := join_filterMap_map db.income_category db.income hwf
  have h1 : (fetch_income db).map (fun r : JoinedRow => r.1)
      = db.income.map (fun i => i.id) := hj.1
  have h2 : (fetch_income db).map (fun r : JoinedRow => r.2.2)
      = db.income.map (fun i => i.amount) := hj.2
  have hlen : db.income.length = (fetch_income db).length := by
    have := congrArg List.length h1
    simpa using this.symm
  constructor
  · intro hne
    have hfne : (fetch_income db).isEmpty = false := by
      cases hfetch : fetch_income db with
      | nil =>
        exfalso
        apply hne
        have hzero : db.income.length = 0 := by rw [hlen, hfetch]; rfl
        exact List.length_eq_zero.mp hzero
      | cons a l => rfl
    constructor
    · show (view_income db).total = _
      simp only [view_income, hfne]
      rw [← h2]
      simp
    · show (view_income db).ids = _
      simp only [view_income, hfne]
      rw [← h1]
      simp
  · intro hempty
    have hfe : fetch_income db = [] := by
      simp [fetch_income, hempty]
    simp [view_income, hfe]

/-- Concrete run of `c8_view_income_total` on `dbA`, whose single income row
has amount 20 and id 1. -/
theorem c8_view_income_total_witness :
    (view_income dbA).total = some 20 ∧ (view_income dbA).ids = [1] :=
  have h := (c8_view_income_total dbA (by decide)).1 (by simp [dbA])
  ⟨by rw [h.1]; norm_num [dbA], by rw [h.2]; rfl⟩

/-- C9 counterexample: on empty category tables the two listing operations do
not return the same value shape — `view_expense_categories` returns the
empty list while `view_income_categories` falls through and returns
`None`. -/
theorem c9_counterexample :
    view_expense_categories_ret [] = some []
    ∧ view_income_categories_ret [] = none
    ∧ view_expense_categories_ret [] ≠ view_income_categories_ret [] := by
  refine ⟨rfl, rfl, ?_⟩
  intro hcontra
  exact Option.noConfusion hcontra

/-- C9 (amended): the store effects and computed results of every
corresponding expense/income operation pair coincide up to the record set
acted on.  For any two stores whose expense-side category and transaction
tables equal the other's income-side tables: adding a transaction inserts
the same row; viewing all transactions yields the same reported total and
returned identifier list; on a nonempty category set the two category
listings agree and return exactly the stored identifier list; viewing by
category yields the same amounts and sum; updating a transaction's
`category_id` or `amount` and deleting a transaction produce the same
rows; and deleting a category removes the same category and transaction
rows.  (Adding a category is a single shared routine in the source; the
prompting layer is not symmetric and is excluded — the empty-set return
shapes of the listing pair differ per the counterexample, the retry cap
of `delete_expense_category` is missing per C7, and the empty-set abort
messages differ.) -/
theorem c9_subsystems_symmetric (db1 db2 : DB)
    (hc : db1.expense_category = db2.income_category)
    (ht : db1.expenses = db2.income) :
    (∀ (nid cid : Nat) (a : ℚ), (add_expense_record db1 nid cid a).expenses
      = (add_income_record db2 nid cid a).income)
    ∧ view_expenses db1 = view_income db2
    ∧ (db1.expense_category ≠ [] →
        view_expense_categories_ret db1.expense_category
          = view_income_categories_ret db2.income_category
        ∧ view_expense_categories_ret db1.expense_category
          = some (db1.expense_category.map (fun c => c.id)))
    ∧ (∀ cid : Nat, view_expenses_by_category_sum db1 cid
        = view_income_by_category_sum db2 cid)
    ∧ (∀ rid nv : Nat, (update_expense_category_id db1 rid nv).expenses
        = (update_income_category_id db2 rid nv).income)
    ∧ (∀ (rid : Nat) (nv : ℚ), (update_expense_amount db1 rid nv).expenses
        = (update_income_amount db2 rid nv).income)
    ∧ (∀ rid : Nat, (delete_expense_record db1 rid).expenses
        = (delete_income_record db2 rid).income)
    ∧ (∀ cid : Nat,
        (delete_expense_category_record db1 cid).expense_category
          = (delete_income_category_record db2 cid).income_category
        ∧ (delete_expense_category_record db1 cid).expenses
          = (delete_income_category_record db2 cid).income) := by
  refine ⟨?_, ?_, ?_, ?_, ?_, ?_, ?_, ?_⟩
  · intro nid cid a
    show db1.expenses ++ [(⟨nid, cid, a⟩ : Txn)] = db2.income ++ [⟨nid, cid, a⟩]
    rw [ht]
  · have hfetch : fetch_expenses db1 = fetch_income db2 := by
      unfold fetch_expenses fetch_income
      rw [hc, ht]
    unfold view_expenses view_income
    rw [hfetch]
  · intro hne
    constructor
    · rw [← hc]
      cases hcats : db1.expense_category with
      | nil => exact absurd hcats hne
      | cons a l =>
        simp [view_expense_categories_ret, view_income_categories_ret]
    · cases hcats : db1.expense_category with
      | nil => exact absurd hcats hne
      | cons a l => simp [view_expense_categories_ret]
  · intro cid
    unfold view_expenses_by_category_sum view_income_by_category_sum
    rw [ht]
  · intro rid nv
    show db1.expenses.map _ = db2.income.map _
    rw [ht]
  · intro rid nv
    show db1.expenses.map _ = db2.income.map _
    rw [ht]
  · intro rid
    show db1.expenses.filter _ = db2.income.filter _
    rw [ht]
  · intro cid
    exact ⟨by show db1.expense_category.filter _ = db2.income_category.filter _
              rw [hc],
      by show db1.expenses.filter _ = db2.income.filter _
         rw [ht]⟩

/-- Concrete run of `c9_subsystems_symmetric` on `dbA` and its income-side
mirror `dbC`: viewing all transactions gives identical results, and the
nonempty category listings agree. -/
theorem c9_subsystems_symmetric_witness :
    view_expenses dbA = view_income dbC
    ∧ view_expense_categories_ret dbA.expense_category
      = view_income_categories_ret dbC.income_category :=
  ⟨(c9_subsystems_symmetric dbA dbC rfl rfl).2.1,
    ((c9_subsystems_symmetric dbA dbC rfl rfl).2.2.1
      (List.cons_ne_nil _ _)).1⟩

/-- Every identifier returned by `view_expenses` is the id of some joined
row. -/
lemma view_expenses_ids_mem (db0 : DB) (x : Nat)
    (hx : x ∈ (view_expenses db0).ids) : ∃ r ∈ fetch_expenses db0, r.1 = x := by
  simp only [view_expenses] at hx
  cases hE : (fetch_expenses db0).isEmpty with
  | true =>
    rw [hE] at hx
    simp at hx
  | false =>
    rw [hE] at hx
    simp only [Bool.false_eq_true, if_false] at hx
    obtain ⟨r, hr, hrx⟩ := List.mem_map.mp hx
    exact ⟨r, hr, hrx⟩

/-- C10: an expense row whose `category_id` matches no expense category —
reachable because `update_expense_category_id` accepts an arbitrary value
— is invisible to `view_expenses`: the displayed table, the reported
total, and the returned identifier list are those of the store without
that row, and its id is absent from the returned list. -/
theorem c10_dangling_expense_excluded (db : DB) (pre post : List Txn) (e : Txn)
    (hexp : db.expenses = pre ++ e :: post)
    (hdangling : ∀ c ∈ db.expense_category, c.id ≠ e.category_id) :
    fetch_expenses db = fetch_expenses { db with expenses := pre ++ post }
    ∧ view_expenses db = view_expenses { db with expenses := pre ++ post }
    ∧ ((∀ x ∈ pre ++ post, x.id ≠ e.id) →
        e.id ∉ (view_expenses db).ids) := by
  have hfind : db.expense_category.find? (fun c => c.id = e.category_id)
      = none := by
    rw [List.find?_eq_none]
    intro c hc
    simpa using hdangling c hc
  have hfetch : fetch_expenses db
      = fetch_expenses { db with expenses := pre ++ post } := by
    show db.expenses.filterMap _ = (pre ++ post).filterMap _
    rw [hexp, List.filterMap_append, List.filterMap_append,
      List.filterMap_cons, hfind]
    simp
  have hview : view_expenses db
      = view_expenses { db with expenses := pre ++ post } := by
    unfold view_expenses
    rw [hfetch]
  refine ⟨hfetch, hview, ?_⟩
  intro hids hmem
  rw [hview] at hmem
  obtain ⟨r, hr, hrid⟩ :=
    view_expenses_ids_mem { db with expenses := pre ++ post } e.id hmem
  have hr' : ∃ x ∈ pre ++ post, ((db.expense_category.find?
      (fun c => c.id = x.category_id)).map
        (fun c => (x.id, c.name, x.amount))) = some r := by
    simpa [fetch_expenses] using List.mem_filterMap.mp hr
  obtain ⟨x, hxmem, hxr⟩ := hr'
  obtain ⟨c, -, hcr⟩ := Option.map_eq_some'.mp hxr
  have : r.1 = x.id := by rw [← hcr]
  exact hids x hxmem (by rw [← hrid, this])

/-- Concrete run of `c10_dangling_expense_excluded`: after
`update_expense_category_id` points expense 2 of `dbA` at the nonexistent
category 99, `view_expenses` shows exactly the view of the store without
that row, and id 2 is not among the returned identifiers. -/
theorem c10_dangling_expense_excluded_witness :
    view_expenses (update_expense_category_id dbA 2 99)
      = view_expenses { update_expense_category_id dbA 2 99 with
          expenses := [⟨1, 1, 7⟩] }
    ∧ (2 : Nat) ∉ (view_expenses (update_expense_category_id dbA 2 99)).ids :=
  have h := c10_dangling_expense_excluded (update_expense_category_id dbA 2 99)
    [⟨1, 1, 7⟩] [] ⟨2, 99, 5⟩ rfl (by decide)
  ⟨h.2.1, h.2.2 (by decide)⟩

end BudgetTracker
